import Mathlib

/-!
# Verification of the HealthStoreBackend order/payment workflow

A shallow embedding of the pricing engine (`src/utils/delivery.js`), the
order-creation and payment-reconciliation routes (`src/routes/orders.js`,
which bundles the order routes, the legacy payment routes and the
`routes/paystack.js` webhook/verify/status routes), and the cart routes
(`src/routes/cart.js`) of the HealthStoreBackend repository, together with
theorems settling the specification's claims about them.

Modelling conventions:
* JavaScript numbers are modelled as rationals (`ℚ`); `Math.round` is
  `⌊x + 1/2⌋` (round half toward positive infinity), which is what
  `Math.round` computes.
* Database ids (UUIDs) are modelled as naturals; the gateway reference string
  `` `order_${order.id}_${Date.now()}` `` is modelled as the pair
  `PayRef` of the order id and the timestamp, which the string format
  determines injectively for a fixed order id.
* Each route handler is a pure function from its request data and the
  database state to a result, a new database state, and a trace of the
  mutating operations it issued (order update, cart delete, stock
  decrement); database writes are modelled as always succeeding.
* `String.toLowerCase`/`trim` of JavaScript are re-implemented over the
  character list (`jsToLowerCase`, `jsTrim`) so that they compute by kernel
  reduction.
-/

namespace HealthStore

/-- JavaScript `String.prototype.toLowerCase()` (ASCII case mapping),
as used by `delivery.js` on region names. -/
def jsToLowerCase (s : String) : String :=
  ⟨s.data.map Char.toLower⟩

/-- JavaScript `String.prototype.trim()`: strip leading and trailing
whitespace. -/
def jsTrim (s : String) : String :=
  ⟨((s.data.dropWhile Char.isWhitespace).reverse.dropWhile Char.isWhitespace).reverse⟩

/-- JavaScript `Math.round`: round half toward positive infinity. -/
def jsRound (q : ℚ) : ℤ :=
  ⌊q + 1 / 2⌋

/-- Rounding `Math.round(x * 100) / 100` to 2 decimal places, as in to 2 decimal places, as in
`calculateOrderTotals`. -/
def round2 (q : ℚ) : ℚ :=
  ((jsRound (q * 100) : ℤ) : ℚ) / 100

/-- The `nearbyStates` list of `calculateDeliveryFee`
(src/utils/delivery.js). -/
def nearbyStates : List String :=
  ["ogun", "oyo", "osun", "ondo", "ekiti", "edo"]

/-- Function `calculateDeliveryFee` (src/utils/delivery.js lines 1-19): default 9000
for a falsy state, 10000 for lagos, 23000 for the nearby states, 27000
otherwise.  A missing/`undefined` state is modelled as the empty string,
the only falsy value a string argument can take. -/
def calculateDeliveryFee (state : String) : ℚ :=
  if state = "" then 9000
  else
    let normalizedState := jsTrim (jsToLowerCase state)
    if normalizedState = "lagos" then 10000
    else if nearbyStates.contains normalizedState then 23000
    else 27000

/-- A row of the `discounts` table: `percentage DECIMAL(5,2)`,
`valid_until DATE` (modelled as an integer day number). -/
structure Discount where
  percentage : ℚ
  valid_until : ℤ
deriving DecidableEq, Repr

/-- Modelled from the spec: expiry of a discount record, i.e. its
`valid_until` date lying strictly before the current date.  No code under
`src/` ever evaluates this predicate; it is needed to state the spec's
claims about expired discounts. -/
def Discount.expired (d : Discount) (today : ℤ) : Bool :=
  decide (d.valid_until < today)

/-- An element of an order's `order_items` JSON array: the snapshot
`{product_id, product_name, quantity, price}` built by `POST /create`. -/
structure OrderItem where
  product_id : ℕ
  product_name : String
  quantity : ℕ
  price : ℚ
deriving DecidableEq, Repr

/-- The record returned by `calculateOrderTotals`. -/
structure Totals where
  subtotal : ℚ
  deliveryFee : ℚ
  discountAmount : ℚ
  total : ℚ
deriving DecidableEq, Repr

/-- The `items.reduce((total, item) => total + item.price * item.quantity, 0)`
subtotal of `calculateOrderTotals`. -/
def subtotalOf (items : List OrderItem) : ℚ :=
  items.foldl (fun t i => t + i.price * (i.quantity : ℚ)) 0

/-- Function `calculateOrderTotals` (src/utils/delivery.js lines 21-41).  The
`discount && discount.percentage` truthiness test is modelled as the
discount being present with a nonzero percentage; `valid_until` is never
read.  `deliveryFee` is returned unrounded, exactly as in the source. -/
def calculateOrderTotals (items : List OrderItem) (state : String)
    (discount : Option Discount) : Totals :=
  let subtotal := subtotalOf items
  let deliveryFee := calculateDeliveryFee state
  let discountAmount : ℚ :=
    match discount with
    | some d => if d.percentage = 0 then 0 else subtotal * d.percentage / 100
    | none => 0
  let total := subtotal + deliveryFee - discountAmount
  { subtotal := round2 subtotal
    deliveryFee := deliveryFee
    discountAmount := round2 discountAmount
    total := round2 total }

/-- The list of recognized states in `validateNigerianState`
(src/utils/delivery.js lines 43-55). -/
def nigerianStates : List String :=
  ["abia", "adamawa", "akwa ibom", "anambra", "bauchi", "bayelsa",
   "benue", "borno", "cross river", "delta", "ebonyi", "edo",
   "ekiti", "enugu", "gombe", "imo", "jigawa", "kaduna",
   "kano", "katsina", "kebbi", "kogi", "kwara", "lagos",
   "nasarawa", "niger", "ogun", "ondo", "osun", "oyo",
   "plateau", "rivers", "sokoto", "taraba", "yobe", "zamfara",
   "fct", "abuja"]

/-- Function `validateNigerianState` (src/utils/delivery.js): membership of the
lower-cased — but NOT trimmed — state in the list. -/
def validateNigerianState (state : String) : Bool :=
  nigerianStates.contains (jsToLowerCase state)

/-- A row of the `cart` table: `(user_id, product_id)` unique pair with a
quantity. -/
structure CartLine where
  user_id : ℕ
  product_id : ℕ
  quantity : ℕ
deriving DecidableEq, Repr

/-- A row of the `products` table (the fields the claims touch).  `stock`
is an SQL INTEGER with no non-negativity constraint enforced by the code
paths modelled here, hence `ℤ`. -/
structure Product where
  id : ℕ
  name : String
  price : ℚ
  stock : ℤ
deriving DecidableEq, Repr

/-- The payment reference `` `order_${order.id}_${Date.now()}` ``,
modelled as the (order id, timestamp) pair the string encodes. -/
structure PayRef where
  order_id : ℕ
  ts : ℕ
deriving DecidableEq, Repr

/-- Status `orders.payment_status ∈ {pending, success, failed}`. -/
inductive PayStatus where
  | pending
  | success
  | failed
deriving DecidableEq, Repr

/-- Status `orders.order_status`. -/
inductive OrdStatus where
  | pending
  | paymentFailed
  | processing
  | shipped
  | delivered
  | cancelled
deriving DecidableEq, Repr

/-- A row of the `orders` table. -/
structure Order where
  id : ℕ
  user_id : ℕ
  order_items : List OrderItem
  subtotal : ℚ
  delivery_fee : ℚ
  discount_code : Option String
  total : ℚ
  state : String
  city : String
  address : String
  phone : Option String
  payment_status : PayStatus
  order_status : OrdStatus
  payment_reference : Option PayRef
deriving DecidableEq, Repr

/-- The database state the modelled routes read and write. -/
structure DB where
  products : List Product
  cart : List CartLine
  orders : List Order
deriving DecidableEq, Repr

/-- A mutating database operation issued by a handler, recorded in the
order the handler issues it. -/
inductive Effect where
  | orderUpdate (order_id : ℕ)
  | cartClear (user_id : ℕ)
  | stockDec (product_id : ℕ) (quantity : ℕ)
deriving DecidableEq, Repr

/-- A handler outcome: response, new database state, trace of mutations. -/
structure Outcome (R : Type) where
  res : R
  db : DB
  trace : List Effect
deriving DecidableEq, Repr

/-- Query `select * from orders where id = oid` (`.single()`). -/
def findOrderById (db : DB) (oid : ℕ) : Option Order :=
  db.orders.find? (fun o => o.id == oid)

/-- Query `update orders set ... where id = oid`. -/
def updateOrderById (db : DB) (oid : ℕ) (f : Order → Order) : DB :=
  { db with orders := db.orders.map (fun o => if o.id == oid then f o else o) }

/-- Query `delete from cart where user_id = uid`. -/
def clearCartOf (db : DB) (uid : ℕ) : DB :=
  { db with cart := db.cart.filter (fun l => l.user_id != uid) }

/-- The cart rows of a user (`select ... from cart where user_id = uid`). -/
def cartOf (db : DB) (uid : ℕ) : List CartLine :=
  db.cart.filter (fun l => l.user_id == uid)

/-- Modelled from the spec: the `decrement_stock` database RPC invoked by
the webhook handler.  Its SQL body is not part of this repository's
sources; per the spec it decrements the product's stock counter by the
given quantity. -/
def decrementStock (db : DB) (pid : ℕ) (qty : ℕ) : DB :=
  { db with
      products := db.products.map
        (fun p => if p.id == pid then { p with stock := p.stock - (qty : ℤ) } else p) }

/-- The webhook's `for (const item of order.order_items)` loop of
`decrement_stock` calls, returning the final state and the decrement
operations issued in order. -/
def decrementAll (db : DB) : List OrderItem → DB × List Effect
  | [] => (db, [])
  | i :: rest =>
    let step := decrementAll (decrementStock db i.product_id i.quantity) rest
    (step.1, Effect.stockDec i.product_id i.quantity :: step.2)

/-- The `metadata` object of a webhook event
(`metadata?.order_id`, `metadata?.user_id`). -/
structure WebhookMeta where
  order_id : Option ℕ
  user_id : Option ℕ
deriving DecidableEq, Repr

/-- The `data` object of a webhook event. -/
structure WebhookData where
  reference : PayRef
  status : String
  amount : ℚ
  metadata : Option WebhookMeta
deriving DecidableEq, Repr

/-- A parsed webhook request body `{event, data}`.  The raw request body
is identified with its parse: distinct bodies are modelled as distinct
events, and the HMAC is computed over the event value. -/
structure WebhookEvent where
  event : String
  data : WebhookData
deriving DecidableEq, Repr

/-- The webhook event with its `amount` field replaced. -/
def setAmount (e : WebhookEvent) (a : ℚ) : WebhookEvent :=
  { e with data := { e.data with amount := a } }

/-- The webhook's `charge.success` order update payload:
`{payment_status: 'success', order_status: 'processing', payment_reference: reference}`. -/
def successOrderUpdate (r : PayRef) (o : Order) : Order :=
  { o with
      payment_status := .success
      order_status := .processing
      payment_reference := some r }

/-- The manual-verify success update payload:
`{payment_status: 'success', order_status: 'processing'}` — it does not
touch `payment_reference`. -/
def verifyOrderUpdate (o : Order) : Order :=
  { o with payment_status := .success, order_status := .processing }

/-- The webhook's `charge.failed` order update payload. -/
def failedOrderUpdate (r : PayRef) (o : Order) : Order :=
  { o with
      payment_status := .failed
      order_status := .cancelled
      payment_reference := some r }

/-- Responses of `POST /webhook` (routes/paystack.js). -/
inductive WebhookRes where
  /-- Response 401 `{error: 'Invalid signature'}`. -/
  | invalidSignature
  /-- Response 404 `{error: 'Order not found'}`. -/
  | orderNotFound
  /-- Response 200 `{received: true, message: 'Payment processed successfully', order_id}`. -/
  | processed (order_id : ℕ)
  /-- Response 200 `{received: true}` (fall-through). -/
  | received
deriving DecidableEq, Repr

/-- Handler of `POST /webhook` (routes/paystack.js lines 477-610).  `hmacFn` stands
for `crypto.createHmac('sha512', secret).update(body).digest('hex')`;
the handler recomputes it over the body and compares with the
`x-paystack-signature` header.  Note the `charge.success` branch never
consults the order's current `payment_status`. -/
def paystackWebhook (hmacFn : String → WebhookEvent → String) (secret : String)
    (signature : String) (event : WebhookEvent) (db : DB) : Outcome WebhookRes :=
  if hmacFn secret event ≠ signature then
    ⟨.invalidSignature, db, []⟩
  else if event.event = "charge.success" then
    match event.data.metadata with
    | some m =>
      match m.order_id, m.user_id with
      | some oid, some uid =>
        match findOrderById db oid with
        | none => ⟨.orderNotFound, db, []⟩
        | some order =>
          let db1 := updateOrderById db oid (successOrderUpdate event.data.reference)
          let db2 := clearCartOf db1 uid
          let dec := decrementAll db2 order.order_items
          ⟨.processed oid, dec.1, Effect.orderUpdate oid :: Effect.cartClear uid :: dec.2⟩
      | _, _ => ⟨.received, db, []⟩
    | none => ⟨.received, db, []⟩
  else if event.event = "charge.failed" then
    match event.data.metadata.bind (fun m => m.order_id) with
    | some oid =>
      ⟨.received, updateOrderById db oid (failedOrderUpdate event.data.reference),
        [Effect.orderUpdate oid]⟩
    | none => ⟨.received, db, []⟩
  else ⟨.received, db, []⟩

/-- Responses of `POST /verify` (routes/paystack.js lines 616-714). -/
inductive VerifyRes where
  /-- Response 400 `{error: 'Payment reference is required'}`. -/
  | missingReference
  /-- Response 400: the gateway did not report status `success`. -/
  | failedVerification
  /-- Response 404 `{error: 'Order not found'}`. -/
  | orderNotFound
  /-- Response 200 `{success: true, already_processed: true, order_id}`. -/
  | alreadyProcessed (order_id : ℕ)
  /-- Response 200 `{success: true, message: 'Payment verified successfully', order_id}`. -/
  | verified (order_id : ℕ)
deriving DecidableEq, Repr

/-- Handler of `POST /verify` (routes/paystack.js lines 616-714): authenticated manual
verification.  `gatewayStatus` is the `data.status` the gateway returns
for the reference.  On success it updates the order and clears the cart
but issues NO stock decrement, and it does not touch
`payment_reference`. -/
def verifyPayment (user_id : ℕ) (reference : Option PayRef)
    (gatewayStatus : String) (db : DB) : Outcome VerifyRes :=
  match reference with
  | none => ⟨.missingReference, db, []⟩
  | some ref =>
    if gatewayStatus = "success" then
      match db.orders.find?
          (fun o => o.payment_reference == some ref && o.user_id == user_id) with
      | none => ⟨.orderNotFound, db, []⟩
      | some order =>
        if order.payment_status = .success then
          ⟨.alreadyProcessed order.id, db, []⟩
        else
          let db1 := updateOrderById db order.id verifyOrderUpdate
          ⟨.verified order.id, clearCartOf db1 user_id,
            [Effect.orderUpdate order.id, Effect.cartClear user_id]⟩
    else ⟨.failedVerification, db, []⟩

/-- The request body of `POST /create`; absent fields are modelled as the
empty string (the falsy value `req.body` destructuring yields for them). -/
structure CreateReq where
  state : String
  city : String
  address : String
  phone : String
  email : String
  discount_code : Option String
deriving DecidableEq, Repr

/-- Outcome of the `axios.post('https://api.paystack.co/transaction/initialize', ...)`
call: either the gateway accepts (echoing the submitted reference) or the
call fails/times out. -/
inductive GatewayInit where
  | ok
  | failed
deriving DecidableEq, Repr

/-- Responses of `POST /create` (src/routes/orders.js lines 11-187). -/
inductive CreateRes where
  | missingFields
  | missingEmail
  /-- Response 400 `{error: 'Invalid Nigerian state'}`. -/
  | invalidState
  | emptyCart
  /-- Response 400 `{error: 'Insufficient stock for <name>'}`. -/
  | insufficientStock (name : String)
  /-- Response 201 with the order and payment details. -/
  | created (order_id : ℕ) (reference : PayRef)
  /-- Response 500 `{error: 'Order created but payment initialization failed', order_id}`. -/
  | paystackFailed (order_id : ℕ)
deriving DecidableEq, Repr

/-- A cart row joined with its product
(`select quantity, products (id, name, price, stock) from cart`).  Rows
whose product row is missing are dropped by the join. -/
structure JoinedLine where
  quantity : ℕ
  product : Product
deriving DecidableEq, Repr

/-- The `POST /create` cart query with its embedded products join. -/
def getCartJoined (db : DB) (uid : ℕ) : List JoinedLine :=
  (cartOf db uid).filterMap
    (fun l => (db.products.find? (fun p => p.id == l.product_id)).map
      (fun p => ⟨l.quantity, p⟩))

/-- The `for (const item of cartItems)` stock check of `POST /create`:
the name of the first product with `stock < quantity`, if any. -/
def firstInsufficient : List JoinedLine → Option String
  | [] => none
  | l :: rest =>
    if l.product.stock < (l.quantity : ℤ) then some l.product.name
    else firstInsufficient rest

/-- The OrderLine snapshots `{product_id, product_name, quantity, price}`
built from the joined cart. -/
def snapshotItems (lines : List JoinedLine) : List OrderItem :=
  lines.map (fun l => ⟨l.product.id, l.product.name, l.quantity, l.product.price⟩)

/-- The order row `POST /create` inserts (payment_status `pending`,
order_status `pending`, payment_reference null; totals computed WITHOUT a
discount — `calculateOrderTotals(orderItems, state)` passes none even when
a `discount_code` was supplied). -/
def pendingOrderOf (user_id : ℕ) (req : CreateReq) (newOrderId : ℕ) (db : DB) : Order :=
  let items := snapshotItems (getCartJoined db user_id)
  let totals := calculateOrderTotals items req.state none
  { id := newOrderId
    user_id := user_id
    order_items := items
    subtotal := totals.subtotal
    delivery_fee := totals.deliveryFee
    discount_code := req.discount_code
    total := totals.total
    state := req.state
    city := req.city
    address := req.address
    phone := if req.phone = "" then none else some req.phone
    payment_status := .pending
    order_status := .pending
    payment_reference := none }

/-- Handler of `POST /create` (src/routes/orders.js lines 11-187).  `newOrderId` is
the id the insert generates, `now` the `Date.now()` timestamp used for the
gateway reference, `gateway` the outcome of the initialize call.  The
confirmation email is fire-and-forget and stateless, so it is not
modelled. -/
def createOrder (user_id : ℕ) (req : CreateReq) (newOrderId : ℕ) (now : ℕ)
    (gateway : GatewayInit) (db : DB) : Outcome CreateRes :=
  if req.state = "" ∨ req.city = "" ∨ req.address = "" then ⟨.missingFields, db, []⟩
  else if req.email = "" then ⟨.missingEmail, db, []⟩
  else if ¬ validateNigerianState req.state then ⟨.invalidState, db, []⟩
  else if cartOf db user_id = [] then ⟨.emptyCart, db, []⟩
  else
    match firstInsufficient (getCartJoined db user_id) with
    | some nm => ⟨.insufficientStock nm, db, []⟩
    | none =>
      let newOrder := pendingOrderOf user_id req newOrderId db
      let db1 : DB := { db with orders := db.orders ++ [newOrder] }
      match gateway with
      | .ok =>
        let r : PayRef := ⟨newOrderId, now⟩
        ⟨.created newOrderId r,
          updateOrderById db1 newOrderId (fun o => { o with payment_reference := some r }),
          [Effect.orderUpdate newOrderId]⟩
      | .failed =>
        ⟨.paystackFailed newOrderId,
          updateOrderById db1 newOrderId (fun o => { o with order_status := .paymentFailed }),
          [Effect.orderUpdate newOrderId]⟩

/-- Responses of `POST /:id/retry-payment` (src/routes/orders.js lines
249-316). -/
inductive RetryRes where
  | missingEmail
  | orderNotFound
  /-- Response 400 `{error: 'Order already paid'}`. -/
  | alreadyPaid
  /-- Response 500 (the initialize call threw). -/
  | gatewayError
  /-- Response 200 `{message: 'Payment initialized successfully', ...}`. -/
  | newRef (reference : PayRef)
deriving DecidableEq, Repr

/-- Handler of `POST /:id/retry-payment` (src/routes/orders.js lines 249-316). -/
def retryPayment (user_id : ℕ) (oid : ℕ) (email : String) (now : ℕ)
    (gateway : GatewayInit) (db : DB) : Outcome RetryRes :=
  if email = "" then ⟨.missingEmail, db, []⟩
  else
    match db.orders.find? (fun o => o.id == oid && o.user_id == user_id) with
    | none => ⟨.orderNotFound, db, []⟩
    | some order =>
      if order.payment_status = .success then ⟨.alreadyPaid, db, []⟩
      else
        match gateway with
        | .failed => ⟨.gatewayError, db, []⟩
        | .ok =>
          let r : PayRef := ⟨order.id, now⟩
          ⟨.newRef r,
            updateOrderById db order.id (fun o => { o with payment_reference := some r }),
            [Effect.orderUpdate order.id]⟩

/-- Responses of `POST /add` (src/routes/cart.js lines 30-81). -/
inductive AddCartRes where
  | missingProductId
  | productNotFound
  | insufficientStock
  | added
deriving DecidableEq, Repr

/-- The cart `upsert` with `onConflict: 'user_id,product_id'`: replace the
quantity of an existing `(user_id, product_id)` row, else append a new
row. -/
def cartUpsert (cart : List CartLine) (uid : ℕ) (pid : ℕ) (q : ℕ) : List CartLine :=
  if cart.any (fun l => l.user_id == uid && l.product_id == pid) then
    cart.map (fun l =>
      if l.user_id == uid && l.product_id == pid then { l with quantity := q } else l)
  else cart ++ [⟨uid, pid, q⟩]

/-- Handler of `POST /add` (src/routes/cart.js lines 30-81).  A missing `product_id`
is `none`; the quantity defaults to 1 at the call site and arrives here as
a plain value. -/
def addToCart (user_id : ℕ) (product_id : Option ℕ) (quantity : ℕ)
    (db : DB) : Outcome AddCartRes :=
  match product_id with
  | none => ⟨.missingProductId, db, []⟩
  | some pid =>
    match db.products.find? (fun p => p.id == pid) with
    | none => ⟨.productNotFound, db, []⟩
    | some p =>
      if p.stock < (quantity : ℤ) then ⟨.insufficientStock, db, []⟩
      else ⟨.added, { db with cart := cartUpsert db.cart user_id pid quantity }, []⟩

/-- The stock-decrement operations of a trace, in order. -/
def decOps (tr : List Effect) : List (ℕ × ℕ) :=
  tr.filterMap (fun e =>
    match e with
    | .stockDec p q => some (p, q)
    | _ => none)

/-- How many cart-delete operations a trace contains. -/
def clearOps (tr : List Effect) : ℕ :=
  (tr.filter (fun e =>
    match e with
    | .cartClear _ => true
    | _ => false)).length

/-! ## Concrete fixtures used by witnesses and counterexamples -/

/-- A concrete product row. -/
def sampleProduct : Product :=
  ⟨1, "Paracetamol", 50, 5⟩

/-- A concrete pending order of user 7 over two units of product 1, with
the payment reference generated at creation time 0. -/
def sampleOrder : Order :=
  { id := 1
    user_id := 7
    order_items := [⟨1, "Paracetamol", 2, 50⟩]
    subtotal := 100
    delivery_fee := 10000
    discount_code := none
    total := 10100
    state := "lagos"
    city := "Ikeja"
    address := "12 Road"
    phone := none
    payment_status := .pending
    order_status := .pending
    payment_reference := some ⟨1, 0⟩ }

/-- A database holding `sampleProduct`, user 7's cart line, and
`sampleOrder`. -/
def sampleDb : DB :=
  ⟨[sampleProduct], [⟨7, 1, 2⟩], [sampleOrder]⟩

/-- A database with no orders yet, used for order creation. -/
def emptyOrdersDb : DB :=
  ⟨[sampleProduct], [⟨7, 1, 2⟩], []⟩

/-- A valid `charge.success` event for `sampleOrder`. -/
def sampleEvent : WebhookEvent :=
  ⟨"charge.success", ⟨⟨1, 0⟩, "success", 1010000, some ⟨some 1, some 7⟩⟩⟩

/-- A stand-in HMAC function for witnesses: every (secret, body) pair maps
to the secret itself. -/
def dummyHmac : String → WebhookEvent → String :=
  fun s _ => s

/-- A concrete valid `POST /create` request body. -/
def sampleReq : CreateReq :=
  ⟨"lagos", "Ikeja", "12 Road", "080", "a@b.c", none⟩

/-- The item list of the C4 counterexample: one unit priced 0.013. -/
def cexItems : List OrderItem :=
  [⟨1, "Syrup", 1, 13 / 1000⟩]

/-! ## Helper lemmas -/

/-- Function `calculateDeliveryFee` only ever returns one of the four constants. -/
theorem calculateDeliveryFee_cases (s : String) :
    calculateDeliveryFee s = 9000 ∨ calculateDeliveryFee s = 10000 ∨
      calculateDeliveryFee s = 23000 ∨ calculateDeliveryFee s = 27000 := by
  simp only [calculateDeliveryFee]
  split_ifs
  · exact Or.inl rfl
  · exact Or.inr (Or.inl rfl)
  · exact Or.inr (Or.inr (Or.inl rfl))
  · exact Or.inr (Or.inr (Or.inr rfl))

/-- Rounding to 2 decimals commutes with adding an integer. -/
theorem round2_add_int (q : ℚ) (n : ℤ) :
    round2 (q + (n : ℚ)) = round2 q + (n : ℚ) := by
  unfold round2 jsRound
  have h1 : (q + (n : ℚ)) * 100 + 1 / 2 = (q * 100 + 1 / 2) + ((n * 100 : ℤ) : ℚ) := by
    push_cast
    ring
  rw [h1, Int.floor_add_int]
  push_cast
  ring

/-- Rounding zero gives zero: `round2 0 = 0`. -/
theorem round2_zero : round2 0 = 0 := by
  norm_num [round2, jsRound]

/-- After an upsert, every row of the user/product key holds the new
quantity. -/
theorem cartUpsert_mem_eq (cart : List CartLine) (u pid q : ℕ) :
    ∀ l ∈ cartUpsert cart u pid q, l.user_id = u → l.product_id = pid → l.quantity = q := by
  intro l hl h1 h2
  unfold cartUpsert at hl
  by_cases hany : cart.any (fun l => l.user_id == u && l.product_id == pid)
  · rw [if_pos hany] at hl
    obtain ⟨x, hx, hfx⟩ := List.mem_map.1 hl
    by_cases hmatch : x.user_id == u && x.product_id == pid
    · rw [if_pos hmatch] at hfx
      rw [← hfx]
    · rw [if_neg hmatch] at hfx
      subst hfx
      simp [h1, h2] at hmatch
  · rw [if_neg hany] at hl
    rcases List.mem_append.1 hl with hin | hone
    · exfalso
      apply hany
      refine List.any_eq_true.2 ⟨l, hin, ?_⟩
      simp [h1, h2]
    · simp only [List.mem_singleton] at hone
      subst hone
      rfl

/-- After an upsert, a row of the user/product key with the new quantity
exists. -/
theorem cartUpsert_mem_exists (cart : List CartLine) (u pid q : ℕ) :
    ∃ l ∈ cartUpsert cart u pid q, l.user_id = u ∧ l.product_id = pid ∧ l.quantity = q := by
  unfold cartUpsert
  by_cases hany : cart.any (fun l => l.user_id == u && l.product_id == pid)
  · rw [if_pos hany]
    obtain ⟨x, hx, hmatch⟩ := List.any_eq_true.1 hany
    simp only [Bool.and_eq_true, beq_iff_eq] at hmatch
    refine ⟨{ x with quantity := q }, List.mem_map.2 ⟨x, hx, ?_⟩, hmatch.1, hmatch.2, rfl⟩
    rw [if_pos]
    simp [hmatch.1, hmatch.2]
  · rw [if_neg hany]
    exact ⟨⟨u, pid, q⟩, List.mem_append_right _ (List.mem_singleton.2 rfl), rfl, rfl, rfl⟩

/-- The decrement loop does not touch the orders table. -/
theorem decrementAll_orders (items : List OrderItem) (db : DB) :
    (decrementAll db items).1.orders = db.orders := by
  induction items generalizing db with
  | nil => rfl
  | cons i rest ih =>
    simp only [decrementAll]
    rw [ih]
    rfl

/-- The decrement loop does not touch the cart table. -/
theorem decrementAll_cart (items : List OrderItem) (db : DB) :
    (decrementAll db items).1.cart = db.cart := by
  induction items generalizing db with
  | nil => rfl
  | cons i rest ih =>
    simp only [decrementAll]
    rw [ih]
    rfl

/-- The decrement loop issues exactly one stock decrement per order line,
in order. -/
theorem decrementAll_trace (items : List OrderItem) (db : DB) :
    (decrementAll db items).2 =
      items.map (fun i => Effect.stockDec i.product_id i.quantity) := by
  induction items generalizing db with
  | nil => rfl
  | cons i rest ih =>
    simp only [decrementAll, List.map_cons]
    rw [ih]

/-- Projection `decOps` recovers the (product, quantity) pairs of a pure decrement
trace. -/
theorem decOps_stockDecMap (items : List OrderItem) :
    decOps (items.map (fun i => Effect.stockDec i.product_id i.quantity)) =
      items.map (fun i => (i.product_id, i.quantity)) := by
  induction items with
  | nil => rfl
  | cons i rest ih =>
    simp only [List.map_cons, decOps, List.filterMap_cons] at ih ⊢
    rw [ih]

/-- A pure decrement trace contains no cart deletes. -/
theorem clearOps_stockDecMap (items : List OrderItem) :
    clearOps (items.map (fun i => Effect.stockDec i.product_id i.quantity)) = 0 := by
  induction items with
  | nil => rfl
  | cons i rest ih =>
    simp only [List.map_cons, clearOps, List.filter_cons] at ih ⊢
    simp [ih]

/-- Projection `decOps` distributes over trace concatenation. -/
theorem decOps_append (t1 t2 : List Effect) :
    decOps (t1 ++ t2) = decOps t1 ++ decOps t2 := by
  simp [decOps, List.filterMap_append]

/-- Counter `clearOps` adds up over trace concatenation. -/
theorem clearOps_append (t1 t2 : List Effect) :
    clearOps (t1 ++ t2) = clearOps t1 + clearOps t2 := by
  simp [clearOps, List.filter_append]

/-- Re-filtering a user's rows out of an already cleared cart yields
nothing. -/
theorem filter_user_clear (lines : List CartLine) (u : ℕ) :
    (lines.filter (fun l => l.user_id != u)).filter (fun l => l.user_id == u) = [] := by
  induction lines with
  | nil => rfl
  | cons l rest ih =>
    by_cases h : l.user_id = u
    · simp [List.filter_cons, h, ih]
    · simp [List.filter_cons, h, ih]

/-- A user's cart is empty right after it is cleared. -/
theorem cartOf_clearCartOf (db : DB) (u : ℕ) :
    cartOf (clearCartOf db u) u = [] := by
  simp only [cartOf, clearCartOf]
  exact filter_user_clear db.cart u

/-- Closed form of the webhook `charge.success` branch when the signature
matches, the metadata resolves, and the order exists: update, clear cart,
decrement each line — with no check of the order's current
`payment_status`. -/
theorem webhook_success_eq
    (hmacFn : String → WebhookEvent → String) (secret : String)
    (e : WebhookEvent) (db : DB)
    (he : e.event = "charge.success") (oid uid : ℕ)
    (hm : e.data.metadata = some ⟨some oid, some uid⟩)
    (o : Order) (ho : findOrderById db oid = some o) :
    paystackWebhook hmacFn secret (hmacFn secret e) e db =
      ⟨.processed oid,
       (decrementAll
         (clearCartOf (updateOrderById db oid (successOrderUpdate e.data.reference)) uid)
         o.order_items).1,
       Effect.orderUpdate oid :: Effect.cartClear uid ::
         o.order_items.map (fun i => Effect.stockDec i.product_id i.quantity)⟩ := by
  simp [paystackWebhook, he, hm, ho, decrementAll_trace]

/-- Closed form of the manual-verify success branch on an order not yet
marked success: update statuses, clear the cart — no stock decrement, no
`payment_reference` write. -/
theorem verify_pending_eq
    (uid : ℕ) (ref : PayRef) (db : DB) (o : Order)
    (ho : db.orders.find?
      (fun x => x.payment_reference == some ref && x.user_id == uid) = some o)
    (hp : o.payment_status ≠ .success) :
    verifyPayment uid (some ref) "success" db =
      ⟨.verified o.id, clearCartOf (updateOrderById db o.id verifyOrderUpdate) uid,
       [Effect.orderUpdate o.id, Effect.cartClear uid]⟩ := by
  simp [verifyPayment, ho, hp]

/-- Closed form of the manual-verify already-processed short-circuit. -/
theorem verify_processed_eq
    (uid : ℕ) (ref : PayRef) (db : DB) (o : Order)
    (ho : db.orders.find?
      (fun x => x.payment_reference == some ref && x.user_id == uid) = some o)
    (hp : o.payment_status = .success) :
    verifyPayment uid (some ref) "success" db = ⟨.alreadyProcessed o.id, db, []⟩ := by
  simp [verifyPayment, ho, hp]

/-- An order-update entry contributes no stock decrement. -/
theorem decOps_orderUpdate_cons (oid : ℕ) (tr : List Effect) :
    decOps (Effect.orderUpdate oid :: tr) = decOps tr := by
  simp [decOps, List.filterMap_cons]

/-- A cart-clear entry contributes no stock decrement. -/
theorem decOps_cartClear_cons (u : ℕ) (tr : List Effect) :
    decOps (Effect.cartClear u :: tr) = decOps tr := by
  simp [decOps, List.filterMap_cons]

/-- An order-update entry contributes no cart delete. -/
theorem clearOps_orderUpdate_cons (oid : ℕ) (tr : List Effect) :
    clearOps (Effect.orderUpdate oid :: tr) = clearOps tr := by
  simp [clearOps, List.filter_cons]

/-- A cart-clear entry counts as one cart delete. -/
theorem clearOps_cartClear_cons (u : ℕ) (tr : List Effect) :
    clearOps (Effect.cartClear u :: tr) = clearOps tr + 1 := by
  simp [clearOps, List.filter_cons]

/-- An order update keyed on an id absent from a list of orders leaves the
list unchanged. -/
theorem map_update_skip (l : List Order) (newId : ℕ) (f : Order → Order)
    (h : ∀ o ∈ l, o.id ≠ newId) :
    l.map (fun o => if o.id == newId then f o else o) = l := by
  induction l with
  | nil => rfl
  | cons a rest ih =>
    have ha : ¬ a.id == newId := by simp [h a (List.mem_cons_self a rest)]
    simp only [List.map_cons, if_neg ha]
    rw [ih (fun o ho => h o (List.mem_cons_of_mem a ho))]

/-- Search skips a leading segment on which the predicate is false. -/
theorem find?_append_skip {α : Type} (p : α → Bool) (l₁ l₂ : List α)
    (h : ∀ x ∈ l₁, p x = false) :
    (l₁ ++ l₂).find? p = l₂.find? p := by
  induction l₁ with
  | nil => rfl
  | cons a rest ih =>
    rw [List.cons_append, List.find?_cons_of_neg _ (by simp [h a (List.mem_cons_self a rest)])]
    exact ih (fun x hx => h x (List.mem_cons_of_mem a hx))

/-- The inserted order carries the fresh id. -/
theorem pendingOrderOf_id (u : ℕ) (req : CreateReq) (newId : ℕ) (db : DB) :
    (pendingOrderOf u req newId db).id = newId := rfl

/-- The inserted order belongs to the caller. -/
theorem pendingOrderOf_user_id (u : ℕ) (req : CreateReq) (newId : ℕ) (db : DB) :
    (pendingOrderOf u req newId db).user_id = u := rfl

/-- The inserted order starts with payment_status pending. -/
theorem pendingOrderOf_payment_status (u : ℕ) (req : CreateReq) (newId : ℕ) (db : DB) :
    (pendingOrderOf u req newId db).payment_status = .pending := rfl

/-- The inserted order starts with a null payment_reference. -/
theorem pendingOrderOf_payment_reference (u : ℕ) (req : CreateReq) (newId : ℕ) (db : DB) :
    (pendingOrderOf u req newId db).payment_reference = none := rfl

/-! ## Claims -/

/-- C3: a webhook request whose recomputed HMAC over the raw body does not
equal the signature header is rejected with the invalid-signature 401 and
causes no state change and no mutation, whatever the body contains. -/
theorem webhook_bad_signature_rejected
    (hmacFn : String → WebhookEvent → String) (secret signature : String)
    (event : WebhookEvent) (db : DB)
    (h : hmacFn secret event ≠ signature) :
    paystackWebhook hmacFn secret signature event db = ⟨.invalidSignature, db, []⟩ := by
  unfold paystackWebhook
  rw [if_pos h]

/-- Witness for C3 at a concrete mismatched signature over a body with a
valid order id. -/
theorem webhook_bad_signature_rejected_witness :
    paystackWebhook dummyHmac "sec" "forged" sampleEvent sampleDb =
      ⟨.invalidSignature, sampleDb, []⟩ :=
  webhook_bad_signature_rejected dummyHmac "sec" "forged" sampleEvent sampleDb (by decide)

/-- C5 counterexample: the fallback fee of an unrecognized non-empty
region is 27000, the tier-C fee of recognized far states such as kano —
not a fee distinct from all three tiers.  Only the empty region receives
the distinct default 9000. -/
theorem deliveryFee_fallback_equals_tierC :
    validateNigerianState "unknown-state" = false ∧
    validateNigerianState "kano" = true ∧
    calculateDeliveryFee "unknown-state" = calculateDeliveryFee "kano" ∧
    calculateDeliveryFee "kano" = 27000 :=
  ⟨by decide, by decide, rfl, rfl⟩

/-- C5 amended: `calculateDeliveryFee` is total with values in
{9000, 10000, 23000, 27000}; the empty region gets the distinct default
9000; lagos gets 10000; the nearby states get 23000; and EVERY other
non-empty region — recognized or not — gets the tier-C fee 27000. -/
theorem deliveryFee_tiering :
    (∀ s : String, calculateDeliveryFee s = 9000 ∨ calculateDeliveryFee s = 10000 ∨
      calculateDeliveryFee s = 23000 ∨ calculateDeliveryFee s = 27000) ∧
    calculateDeliveryFee "" = 9000 ∧
    (∀ s, s ≠ "" → jsTrim (jsToLowerCase s) = "lagos" →
      calculateDeliveryFee s = 10000) ∧
    (∀ s, s ≠ "" → jsTrim (jsToLowerCase s) ≠ "lagos" →
      nearbyStates.contains (jsTrim (jsToLowerCase s)) = true →
      calculateDeliveryFee s = 23000) ∧
    (∀ s, s ≠ "" → jsTrim (jsToLowerCase s) ≠ "lagos" →
      nearbyStates.contains (jsTrim (jsToLowerCase s)) = false →
      calculateDeliveryFee s = 27000) ∧
    ((9000 : ℚ) ≠ 10000 ∧ (9000 : ℚ) ≠ 23000 ∧ (9000 : ℚ) ≠ 27000) := by
  refine ⟨calculateDeliveryFee_cases, rfl, ?_, ?_, ?_, by norm_num, by norm_num, by norm_num⟩
  · intro s hs h1
    simp [calculateDeliveryFee, hs, h1]
  · intro s hs h1 h2
    have h2' : jsTrim (jsToLowerCase s) ∈ nearbyStates := by simpa using h2
    simp [calculateDeliveryFee, hs, h1, h2']
  · intro s hs h1 h2
    have h2' : jsTrim (jsToLowerCase s) ∉ nearbyStates := by simpa using h2
    simp [calculateDeliveryFee, hs, h1, h2']

/-- Witness for C5 amended at the three concrete regions of the spec's
scenarios. -/
theorem deliveryFee_tiering_witness :
    calculateDeliveryFee "Lagos" = 10000 ∧ calculateDeliveryFee "ogun" = 23000 ∧
      calculateDeliveryFee "unknown-state" = 27000 :=
  ⟨deliveryFee_tiering.2.2.1 "Lagos" (by decide) (by decide),
   deliveryFee_tiering.2.2.2.1 "ogun" (by decide) (by decide) (by decide),
   deliveryFee_tiering.2.2.2.2.1 "unknown-state" (by decide) (by decide) (by decide)⟩

/-- C9: `"  lagos  "` fails `validateNigerianState` (which lower-cases but
does not trim), so `POST /create` rejects it with the invalid-state error
and no state change, although trimming would make it a recognized state
and `calculateDeliveryFee` (which does trim) already classifies it as
lagos. -/
theorem create_rejects_untrimmed_region :
    validateNigerianState "  lagos  " = false ∧
    validateNigerianState (jsTrim "  lagos  ") = true ∧
    calculateDeliveryFee "  lagos  " = calculateDeliveryFee "lagos" ∧
    createOrder 7 ⟨"  lagos  ", "Ikeja", "12 Road", "080", "a@b.c", none⟩ 2 0 .ok sampleDb =
      ⟨.invalidState, sampleDb, []⟩ :=
  ⟨by decide, by decide, rfl, rfl⟩

/-- C4 counterexample: with a supplied 50% discount on a cart of one item
priced 0.013 and region lagos, the rounded fields violate
`total = subtotal + delivery_fee - discount_amount`:
total = 10000.01 but subtotal + fee - discount = 0.01 + 10000 - 0.01. -/
theorem totals_identity_fails_with_discount :
    ¬ ((calculateOrderTotals cexItems "lagos" (some ⟨50, 9999⟩)).total =
      (calculateOrderTotals cexItems "lagos" (some ⟨50, 9999⟩)).subtotal +
        (calculateOrderTotals cexItems "lagos" (some ⟨50, 9999⟩)).deliveryFee -
        (calculateOrderTotals cexItems "lagos" (some ⟨50, 9999⟩)).discountAmount) := by
  have hfee : calculateDeliveryFee "lagos" = 10000 := rfl
  simp only [calculateOrderTotals, cexItems, subtotalOf, List.foldl, hfee]
  norm_num [round2, jsRound]

/-- C4 amended: the output `total` is the 2-decimal rounding of the
unrounded `subtotal + delivery_fee - discount_amount`; when no discount is
supplied the claimed identity over the independently rounded output fields
holds exactly, for every cart and region. -/
theorem totals_identity_without_discount (items : List OrderItem) (state : String) :
    (calculateOrderTotals items state none).total =
      round2 (subtotalOf items + calculateDeliveryFee state - 0) ∧
    (calculateOrderTotals items state none).total =
      (calculateOrderTotals items state none).subtotal +
        (calculateOrderTotals items state none).deliveryFee -
        (calculateOrderTotals items state none).discountAmount := by
  constructor
  · rfl
  · simp only [calculateOrderTotals, round2_zero, sub_zero]
    rcases calculateDeliveryFee_cases state with h | h | h | h <;> rw [h]
    · rw [show ((9000 : ℚ)) = ((9000 : ℤ) : ℚ) by norm_num, round2_add_int]
    · rw [show ((10000 : ℚ)) = ((10000 : ℤ) : ℚ) by norm_num, round2_add_int]
    · rw [show ((23000 : ℚ)) = ((23000 : ℤ) : ℚ) by norm_num, round2_add_int]
    · rw [show ((27000 : ℚ)) = ((27000 : ℤ) : ℚ) by norm_num, round2_add_int]

/-- C6 counterexample: a supplied discount whose `valid_until` (day 0) is
long past at day 100 — i.e. an expired discount — still yields a nonzero
discount amount: 10% of a 100 subtotal gives 10, not the 0 the claim
requires. -/
theorem discount_applied_despite_expiry :
    Discount.expired ⟨10, 0⟩ 100 = true ∧
    (calculateOrderTotals [⟨1, "Tea", 1, 100⟩] "lagos" (some ⟨10, 0⟩)).discountAmount = 10 ∧
    (10 : ℚ) ≠ 0 := by
  refine ⟨by decide, ?_, by norm_num⟩
  simp only [calculateOrderTotals, subtotalOf, List.foldl]
  norm_num [round2, jsRound]

/-- C6 amended: the discount amount is `round2 (subtotal × percentage /
100)` whenever a discount with a nonzero percentage is supplied —
regardless of expiry, which the pricing function never consults — and 0
when the discount is absent or its percentage is 0; the whole output is
independent of `valid_until`. -/
theorem discountAmount_ignores_expiry :
    (∀ (items : List OrderItem) (state : String) (d : Discount),
      (calculateOrderTotals items state (some d)).discountAmount =
        if d.percentage = 0 then 0
        else round2 (subtotalOf items * d.percentage / 100)) ∧
    (∀ (items : List OrderItem) (state : String),
      (calculateOrderTotals items state none).discountAmount = 0) ∧
    (∀ (items : List OrderItem) (state : String) (p : ℚ) (v v' : ℤ),
      calculateOrderTotals items state (some ⟨p, v⟩) =
        calculateOrderTotals items state (some ⟨p, v'⟩)) := by
  refine ⟨?_, ?_, ?_⟩
  · intro items state d
    by_cases hp : d.percentage = 0
    · simp [calculateOrderTotals, hp, round2_zero]
    · simp [calculateOrderTotals, hp]
  · intro items state
    simp [calculateOrderTotals, round2_zero]
  · intro items state p v v'
    rfl

/-- C10: adding a product already in the user's cart replaces the stored
quantity with the newly supplied one (upsert on `(user_id, product_id)`)
instead of incrementing it, and the add-time stock check compares the
product's stock against the new quantity alone — the response is the same
whatever the prior cart contents. -/
theorem addToCart_replaces_quantity
    (db : DB) (u pid q : ℕ) (p : Product)
    (hp : db.products.find? (fun x => x.id == pid) = some p)
    (hs : ¬ p.stock < (q : ℤ)) :
    (addToCart u (some pid) q db).res = .added ∧
    (addToCart u (some pid) q db).db.cart = cartUpsert db.cart u pid q ∧
    (∀ l ∈ cartUpsert db.cart u pid q,
      l.user_id = u → l.product_id = pid → l.quantity = q) ∧
    (∃ l ∈ cartUpsert db.cart u pid q,
      l.user_id = u ∧ l.product_id = pid ∧ l.quantity = q) ∧
    (∀ cart' : List CartLine,
      (addToCart u (some pid) q { db with cart := cart' }).res = .added) := by
  refine ⟨?_, ?_, cartUpsert_mem_eq db.cart u pid q, cartUpsert_mem_exists db.cart u pid q, ?_⟩
  · simp [addToCart, hp, hs]
  · simp [addToCart, hp, hs]
  · intro cart'
    simp [addToCart, hp, hs]

/-- Witness for C10: user 7 already has 2 units of product 1 in the cart
and adds 3 units. -/
theorem addToCart_replaces_quantity_witness :
    (addToCart 7 (some 1) 3 emptyOrdersDb).res = .added ∧
    (addToCart 7 (some 1) 3 emptyOrdersDb).db.cart = cartUpsert emptyOrdersDb.cart 7 1 3 ∧
    (∀ l ∈ cartUpsert emptyOrdersDb.cart 7 1 3,
      l.user_id = 7 → l.product_id = 1 → l.quantity = 3) ∧
    (∃ l ∈ cartUpsert emptyOrdersDb.cart 7 1 3,
      l.user_id = 7 ∧ l.product_id = 1 ∧ l.quantity = 3) ∧
    (∀ cart' : List CartLine,
      (addToCart 7 (some 1) 3 { emptyOrdersDb with cart := cart' }).res = .added) :=
  addToCart_replaces_quantity emptyOrdersDb 7 1 3 sampleProduct rfl (by decide)

/-- C8: for two validly signed `charge.success` events that differ only in
their `amount` field (each carried with its own correct signature), with
resolvable metadata and an existing order, the whole outcome — response,
final database state, and mutation trace — is identical: the handler never
compares the amount against the order's stored total. -/
theorem webhook_outcome_independent_of_amount
    (hmacFn : String → WebhookEvent → String) (secret : String) (db : DB)
    (e : WebhookEvent) (a₁ a₂ : ℚ)
    (he : e.event = "charge.success")
    (oid uid : ℕ) (hm : e.data.metadata = some ⟨some oid, some uid⟩)
    (o : Order) (ho : findOrderById db oid = some o) :
    paystackWebhook hmacFn secret (hmacFn secret (setAmount e a₁)) (setAmount e a₁) db =
      paystackWebhook hmacFn secret (hmacFn secret (setAmount e a₂)) (setAmount e a₂) db := by
  have h₁ := webhook_success_eq hmacFn secret (setAmount e a₁) db (by simpa [setAmount] using he)
    oid uid (by simpa [setAmount] using hm) o ho
  have h₂ := webhook_success_eq hmacFn secret (setAmount e a₂) db (by simpa [setAmount] using he)
    oid uid (by simpa [setAmount] using hm) o ho
  rw [h₁, h₂]
  rfl

/-- Witness for C8 at two concrete amounts differing by a factor of a
million. -/
theorem webhook_outcome_independent_of_amount_witness :
    paystackWebhook dummyHmac "sec" (dummyHmac "sec" (setAmount sampleEvent 1))
        (setAmount sampleEvent 1) sampleDb =
      paystackWebhook dummyHmac "sec" (dummyHmac "sec" (setAmount sampleEvent 1000000))
        (setAmount sampleEvent 1000000) sampleDb :=
  webhook_outcome_independent_of_amount dummyHmac "sec" sampleDb sampleEvent 1 1000000
    rfl 1 7 rfl sampleOrder rfl

/-- C2 counterexample: manual verification of a pending order with one
order line (quantity 2) reports success and ends with product stocks
UNCHANGED ([5], where the claimed per-line decrement would give [3]) and
an empty decrement trace — the verify success branch never decrements
inventory. -/
theorem verify_success_leaves_stock_unchanged :
    sampleOrder.order_items ≠ [] ∧
    (verifyPayment 7 (some ⟨1, 0⟩) "success" sampleDb).res = .verified 1 ∧
    (verifyPayment 7 (some ⟨1, 0⟩) "success" sampleDb).db.products.map Product.stock = [5] ∧
    sampleDb.products.map Product.stock = [5] ∧
    decOps (verifyPayment 7 (some ⟨1, 0⟩) "success" sampleDb).trace = [] := by
  refine ⟨by decide, by decide, by decide, by decide, by decide⟩

/-- C2 amended: on an order not yet marked success, the webhook applies
the full success transition — statuses, payment_reference, cart clear,
and one stock decrement per order line — while the manual-verify success
branch applies only the status update and the cart clear: it issues no
stock decrement, leaves the products table untouched, and does not write
payment_reference. -/
theorem success_transition_webhook_vs_verify
    (hmacFn : String → WebhookEvent → String) (secret : String)
    (e : WebhookEvent) (db : DB)
    (he : e.event = "charge.success") (oid uid : ℕ)
    (hm : e.data.metadata = some ⟨some oid, some uid⟩)
    (o : Order) (ho : findOrderById db oid = some o)
    (ref : PayRef) (o' : Order)
    (ho' : db.orders.find?
      (fun x => x.payment_reference == some ref && x.user_id == uid) = some o')
    (hp' : o'.payment_status ≠ .success) :
    decOps (paystackWebhook hmacFn secret (hmacFn secret e) e db).trace =
      o.order_items.map (fun i => (i.product_id, i.quantity)) ∧
    (paystackWebhook hmacFn secret (hmacFn secret e) e db).db.orders =
      (updateOrderById db oid (successOrderUpdate e.data.reference)).orders ∧
    (paystackWebhook hmacFn secret (hmacFn secret e) e db).db.cart =
      (clearCartOf db uid).cart ∧
    (verifyPayment uid (some ref) "success" db).res = .verified o'.id ∧
    (verifyPayment uid (some ref) "success" db).db.orders =
      (updateOrderById db o'.id verifyOrderUpdate).orders ∧
    (verifyPayment uid (some ref) "success" db).db.cart = (clearCartOf db uid).cart ∧
    decOps (verifyPayment uid (some ref) "success" db).trace = [] ∧
    (verifyPayment uid (some ref) "success" db).db.products = db.products := by
  have hW := webhook_success_eq hmacFn secret e db he oid uid hm o ho
  have hV := verify_pending_eq uid ref db o' ho' hp'
  refine ⟨?_, ?_, ?_, ?_, ?_, ?_, ?_, ?_⟩
  · rw [hW]
    simp [decOps_orderUpdate_cons, decOps_cartClear_cons, decOps_stockDecMap]
  · rw [hW]
    simp [decrementAll_orders, clearCartOf]
  · rw [hW]
    simp [decrementAll_cart, clearCartOf, updateOrderById]
  · rw [hV]
  · rw [hV]
    simp [clearCartOf]
  · rw [hV]
    simp [clearCartOf, updateOrderById]
  · rw [hV]
    rfl
  · rw [hV]
    simp [clearCartOf, updateOrderById]

/-- Witness for C2 amended on the sample database, sample order, and a
correctly signed sample event. -/
theorem success_transition_webhook_vs_verify_witness :
    decOps (paystackWebhook dummyHmac "sec" (dummyHmac "sec" sampleEvent)
        sampleEvent sampleDb).trace =
      sampleOrder.order_items.map (fun i => (i.product_id, i.quantity)) ∧
    (paystackWebhook dummyHmac "sec" (dummyHmac "sec" sampleEvent)
        sampleEvent sampleDb).db.orders =
      (updateOrderById sampleDb 1 (successOrderUpdate sampleEvent.data.reference)).orders ∧
    (paystackWebhook dummyHmac "sec" (dummyHmac "sec" sampleEvent)
        sampleEvent sampleDb).db.cart = (clearCartOf sampleDb 7).cart ∧
    (verifyPayment 7 (some ⟨1, 0⟩) "success" sampleDb).res = .verified sampleOrder.id ∧
    (verifyPayment 7 (some ⟨1, 0⟩) "success" sampleDb).db.orders =
      (updateOrderById sampleDb sampleOrder.id verifyOrderUpdate).orders ∧
    (verifyPayment 7 (some ⟨1, 0⟩) "success" sampleDb).db.cart =
      (clearCartOf sampleDb 7).cart ∧
    decOps (verifyPayment 7 (some ⟨1, 0⟩) "success" sampleDb).trace = [] ∧
    (verifyPayment 7 (some ⟨1, 0⟩) "success" sampleDb).db.products = sampleDb.products :=
  success_transition_webhook_vs_verify dummyHmac "sec" sampleEvent sampleDb rfl 1 7 rfl
    sampleOrder rfl ⟨1, 0⟩ sampleOrder rfl (by decide)

/-- C1 counterexample: manual verify first, webhook second.  When the
webhook fires, the order's payment_status is already success, yet the
webhook still mutates (its trace is nonempty) and the cart delete is
issued twice across the two triggers — not once as the claim states. -/
theorem webhook_after_verify_repeats_mutations :
    (findOrderById
        (verifyPayment 7 (some ⟨1, 0⟩) "success" sampleDb).db 1).map Order.payment_status =
      some .success ∧
    (paystackWebhook dummyHmac "sec" (dummyHmac "sec" sampleEvent) sampleEvent
        (verifyPayment 7 (some ⟨1, 0⟩) "success" sampleDb).db).trace ≠ [] ∧
    clearOps ((verifyPayment 7 (some ⟨1, 0⟩) "success" sampleDb).trace ++
        (paystackWebhook dummyHmac "sec" (dummyHmac "sec" sampleEvent) sampleEvent
          (verifyPayment 7 (some ⟨1, 0⟩) "success" sampleDb).db).trace) = 2 := by
  refine ⟨by decide, by decide, by decide⟩

/-- C1 amended: with the webhook first, the manual verify observes
payment_status success, short-circuits, and performs no mutation, so each
side effect runs exactly once.  With the verify first, the webhook — which
has no already-processed guard — re-runs the whole transition: the cart
delete is issued a second time (a state no-op on the already cleared
cart), and stock is decremented by the webhook; each product's stock is
still decremented exactly once overall only because the verify success
path itself never decrements stock.  In both orders the user's cart ends
empty. -/
theorem success_idempotence_order_dependent
    (hmacFn : String → WebhookEvent → String) (secret : String)
    (e : WebhookEvent) (prods : List Product) (lines : List CartLine) (o : Order)
    (he : e.event = "charge.success")
    (hm : e.data.metadata = some ⟨some o.id, some o.user_id⟩)
    (hp : o.payment_status = .pending)
    (hr : o.payment_reference = some e.data.reference) :
    (verifyPayment o.user_id (some e.data.reference) "success"
        (paystackWebhook hmacFn secret (hmacFn secret e) e ⟨prods, lines, [o]⟩).db).res =
      .alreadyProcessed o.id ∧
    (verifyPayment o.user_id (some e.data.reference) "success"
        (paystackWebhook hmacFn secret (hmacFn secret e) e ⟨prods, lines, [o]⟩).db).trace =
      [] ∧
    (verifyPayment o.user_id (some e.data.reference) "success"
        (paystackWebhook hmacFn secret (hmacFn secret e) e ⟨prods, lines, [o]⟩).db).db =
      (paystackWebhook hmacFn secret (hmacFn secret e) e ⟨prods, lines, [o]⟩).db ∧
    decOps ((paystackWebhook hmacFn secret (hmacFn secret e) e ⟨prods, lines, [o]⟩).trace ++
        (verifyPayment o.user_id (some e.data.reference) "success"
          (paystackWebhook hmacFn secret (hmacFn secret e) e ⟨prods, lines, [o]⟩).db).trace) =
      o.order_items.map (fun i => (i.product_id, i.quantity)) ∧
    clearOps ((paystackWebhook hmacFn secret (hmacFn secret e) e ⟨prods, lines, [o]⟩).trace ++
        (verifyPayment o.user_id (some e.data.reference) "success"
          (paystackWebhook hmacFn secret (hmacFn secret e) e ⟨prods, lines, [o]⟩).db).trace) =
      1 ∧
    decOps ((verifyPayment o.user_id (some e.data.reference) "success"
          ⟨prods, lines, [o]⟩).trace ++
        (paystackWebhook hmacFn secret (hmacFn secret e) e
          (verifyPayment o.user_id (some e.data.reference) "success"
            ⟨prods, lines, [o]⟩).db).trace) =
      o.order_items.map (fun i => (i.product_id, i.quantity)) ∧
    clearOps ((verifyPayment o.user_id (some e.data.reference) "success"
          ⟨prods, lines, [o]⟩).trace ++
        (paystackWebhook hmacFn secret (hmacFn secret e) e
          (verifyPayment o.user_id (some e.data.reference) "success"
            ⟨prods, lines, [o]⟩).db).trace) =
      2 ∧
    (paystackWebhook hmacFn secret (hmacFn secret e) e
        (verifyPayment o.user_id (some e.data.reference) "success"
          ⟨prods, lines, [o]⟩).db).trace ≠ [] ∧
    cartOf (paystackWebhook hmacFn secret (hmacFn secret e) e
        (verifyPayment o.user_id (some e.data.reference) "success"
          ⟨prods, lines, [o]⟩).db).db o.user_id = [] := by
  have hfind1 : findOrderById ⟨prods, lines, [o]⟩ o.id = some o := by
    rw [findOrderById]
    exact List.find?_cons_of_pos _ (by simp)
  have hW := webhook_success_eq hmacFn secret e ⟨prods, lines, [o]⟩ he o.id o.user_id hm o hfind1
  have hupd1 : updateOrderById ⟨prods, lines, [o]⟩ o.id (successOrderUpdate e.data.reference) =
      ⟨prods, lines, [successOrderUpdate e.data.reference o]⟩ := by
    simp [updateOrderById]
  rw [hupd1] at hW
  have hWorders :
      (paystackWebhook hmacFn secret (hmacFn secret e) e ⟨prods, lines, [o]⟩).db.orders =
        [successOrderUpdate e.data.reference o] := by
    rw [hW]
    simp [decrementAll_orders, clearCartOf]
  have hfind2 :
      (paystackWebhook hmacFn secret (hmacFn secret e) e ⟨prods, lines, [o]⟩).db.orders.find?
        (fun x => x.payment_reference == some e.data.reference && x.user_id == o.user_id) =
        some (successOrderUpdate e.data.reference o) := by
    rw [hWorders]
    exact List.find?_cons_of_pos _ (by simp [successOrderUpdate])
  have hV := verify_processed_eq o.user_id e.data.reference _
    (successOrderUpdate e.data.reference o) hfind2 rfl
  have hfind3 : (⟨prods, lines, [o]⟩ : DB).orders.find?
      (fun x => x.payment_reference == some e.data.reference && x.user_id == o.user_id) =
      some o := by
    exact List.find?_cons_of_pos _ (by simp [hr])
  have hV2 := verify_pending_eq o.user_id e.data.reference ⟨prods, lines, [o]⟩ o hfind3
    (by simp [hp])
  have hupd2 : updateOrderById ⟨prods, lines, [o]⟩ o.id verifyOrderUpdate =
      ⟨prods, lines, [verifyOrderUpdate o]⟩ := by
    simp [updateOrderById]
  rw [hupd2] at hV2
  have hVdb : (verifyPayment o.user_id (some e.data.reference) "success"
      ⟨prods, lines, [o]⟩).db =
      ⟨prods, lines.filter (fun l => l.user_id != o.user_id), [verifyOrderUpdate o]⟩ := by
    rw [hV2]
    rfl
  have hfind4 : findOrderById (verifyPayment o.user_id (some e.data.reference) "success"
      ⟨prods, lines, [o]⟩).db o.id = some (verifyOrderUpdate o) := by
    rw [hVdb, findOrderById]
    exact List.find?_cons_of_pos _ (by simp [verifyOrderUpdate])
  have hW2 := webhook_success_eq hmacFn secret e
    (verifyPayment o.user_id (some e.data.reference) "success" ⟨prods, lines, [o]⟩).db
    he o.id o.user_id hm (verifyOrderUpdate o) hfind4
  refine ⟨?_, ?_, ?_, ?_, ?_, ?_, ?_, ?_, ?_⟩
  · rw [hV]
    rfl
  · rw [hV]
  · rw [hV]
  · rw [hV, hW]
    simp [decOps_orderUpdate_cons, decOps_cartClear_cons, decOps_stockDecMap]
  · rw [hV, hW]
    simp [clearOps_orderUpdate_cons, clearOps_cartClear_cons, clearOps_stockDecMap]
  · rw [hW2, hV2]
    simp [decOps_orderUpdate_cons, decOps_cartClear_cons, decOps_stockDecMap,
      verifyOrderUpdate]
  · rw [hW2, hV2]
    simp [clearOps_orderUpdate_cons, clearOps_cartClear_cons, clearOps_stockDecMap]
  · rw [hW2]
    simp
  · have hW2cart : (paystackWebhook hmacFn secret (hmacFn secret e) e
        (verifyPayment o.user_id (some e.data.reference) "success"
          ⟨prods, lines, [o]⟩).db).db.cart =
        (lines.filter (fun l => l.user_id != o.user_id)).filter
          (fun l => l.user_id != o.user_id) := by
      rw [hW2]
      simp [decrementAll_cart, clearCartOf, updateOrderById, hVdb]
    simp only [cartOf]
    rw [hW2cart]
    exact filter_user_clear _ _

/-- Witness for C1 amended: both trigger orders on the sample database. -/
theorem success_idempotence_order_dependent_witness :
    (verifyPayment 7 (some ⟨1, 0⟩) "success"
        (paystackWebhook dummyHmac "sec" (dummyHmac "sec" sampleEvent)
          sampleEvent sampleDb).db).res = .alreadyProcessed 1 ∧
    (verifyPayment 7 (some ⟨1, 0⟩) "success"
        (paystackWebhook dummyHmac "sec" (dummyHmac "sec" sampleEvent)
          sampleEvent sampleDb).db).trace = [] ∧
    (verifyPayment 7 (some ⟨1, 0⟩) "success"
        (paystackWebhook dummyHmac "sec" (dummyHmac "sec" sampleEvent)
          sampleEvent sampleDb).db).db =
      (paystackWebhook dummyHmac "sec" (dummyHmac "sec" sampleEvent)
        sampleEvent sampleDb).db ∧
    decOps ((paystackWebhook dummyHmac "sec" (dummyHmac "sec" sampleEvent)
          sampleEvent sampleDb).trace ++
        (verifyPayment 7 (some ⟨1, 0⟩) "success"
          (paystackWebhook dummyHmac "sec" (dummyHmac "sec" sampleEvent)
            sampleEvent sampleDb).db).trace) = [(1, 2)] ∧
    clearOps ((paystackWebhook dummyHmac "sec" (dummyHmac "sec" sampleEvent)
          sampleEvent sampleDb).trace ++
        (verifyPayment 7 (some ⟨1, 0⟩) "success"
          (paystackWebhook dummyHmac "sec" (dummyHmac "sec" sampleEvent)
            sampleEvent sampleDb).db).trace) = 1 ∧
    decOps ((verifyPayment 7 (some ⟨1, 0⟩) "success" sampleDb).trace ++
        (paystackWebhook dummyHmac "sec" (dummyHmac "sec" sampleEvent) sampleEvent
          (verifyPayment 7 (some ⟨1, 0⟩) "success" sampleDb).db).trace) = [(1, 2)] ∧
    clearOps ((verifyPayment 7 (some ⟨1, 0⟩) "success" sampleDb).trace ++
        (paystackWebhook dummyHmac "sec" (dummyHmac "sec" sampleEvent) sampleEvent
          (verifyPayment 7 (some ⟨1, 0⟩) "success" sampleDb).db).trace) = 2 ∧
    (paystackWebhook dummyHmac "sec" (dummyHmac "sec" sampleEvent) sampleEvent
        (verifyPayment 7 (some ⟨1, 0⟩) "success" sampleDb).db).trace ≠ [] ∧
    cartOf (paystackWebhook dummyHmac "sec" (dummyHmac "sec" sampleEvent) sampleEvent
        (verifyPayment 7 (some ⟨1, 0⟩) "success" sampleDb).db).db 7 = [] :=
  success_idempotence_order_dependent dummyHmac "sec" sampleEvent
    [sampleProduct] [⟨7, 1, 2⟩] sampleOrder rfl rfl rfl rfl

/-- C7: when the gateway initialize call fails (or times out) during order
creation — all request validation and stock checks having passed — the
order is persisted, not deleted: it remains in the orders table with
order_status payment_failed while payment_status stays pending, the
failure response carries the created order id, and the retry operation
then succeeds on that order, recording the fresh reference built from the
order id and the retry timestamp; references from retries at distinct
timestamps are distinct. -/
theorem create_gateway_failure_retryable
    (u : ℕ) (req : CreateReq) (newId t : ℕ) (db : DB)
    (hs : req.state ≠ "") (hc : req.city ≠ "") (ha : req.address ≠ "")
    (he : req.email ≠ "")
    (hv : validateNigerianState req.state = true)
    (hcart : cartOf db u ≠ [])
    (hstock : firstInsufficient (getCartJoined db u) = none)
    (hfresh : ∀ o ∈ db.orders, o.id ≠ newId) :
    (createOrder u req newId t .failed db).res = .paystackFailed newId ∧
    (createOrder u req newId t .failed db).db.orders =
      db.orders ++
        [{ pendingOrderOf u req newId db with order_status := OrdStatus.paymentFailed }] ∧
    ({ pendingOrderOf u req newId db with
        order_status := OrdStatus.paymentFailed }).payment_status = .pending ∧
    (∀ email' t', email' ≠ "" →
      (retryPayment u newId email' t' .ok (createOrder u req newId t .failed db).db).res =
        .newRef ⟨newId, t'⟩ ∧
      (retryPayment u newId email' t' .ok
          (createOrder u req newId t .failed db).db).db.orders =
        db.orders ++
          [{ pendingOrderOf u req newId db with
              order_status := OrdStatus.paymentFailed,
              payment_reference := some ⟨newId, t'⟩ }]) ∧
    (∀ t₁ t₂ : ℕ, t₁ ≠ t₂ → (⟨newId, t₁⟩ : PayRef) ≠ ⟨newId, t₂⟩) := by
  have hskip : ∀ x ∈ db.orders, (x.id == newId && x.user_id == u) = false := by
    intro x hx
    simp [hfresh x hx]
  have hcr : createOrder u req newId t .failed db =
      ⟨.paystackFailed newId,
       updateOrderById { db with orders := db.orders ++ [pendingOrderOf u req newId db] }
         newId (fun o => { o with order_status := OrdStatus.paymentFailed }),
       [Effect.orderUpdate newId]⟩ := by
    simp [createOrder, hs, hc, ha, he, hv, hcart, hstock]
  have horders : (createOrder u req newId t .failed db).db.orders =
      db.orders ++
        [{ pendingOrderOf u req newId db with order_status := OrdStatus.paymentFailed }] := by
    rw [hcr]
    simp only [updateOrderById, List.map_append]
    rw [map_update_skip db.orders newId _ hfresh]
    simp [pendingOrderOf_id]
  refine ⟨?_, horders, rfl, ?_, ?_⟩
  · rw [hcr]
  · intro email' t' hem
    have hfind : (createOrder u req newId t .failed db).db.orders.find?
        (fun o => o.id == newId && o.user_id == u) =
        some { pendingOrderOf u req newId db with
          order_status := OrdStatus.paymentFailed } := by
      rw [horders, find?_append_skip _ _ _ hskip]
      exact List.find?_cons_of_pos _ (by simp [pendingOrderOf_id, pendingOrderOf_user_id])
    have hretry : retryPayment u newId email' t' .ok (createOrder u req newId t .failed db).db =
        ⟨.newRef ⟨newId, t'⟩,
         updateOrderById (createOrder u req newId t .failed db).db newId
           (fun o => { o with payment_reference := some (⟨newId, t'⟩ : PayRef) }),
         [Effect.orderUpdate newId]⟩ := by
      simp only [retryPayment, hem, if_neg, hfind]
      rfl
    constructor
    · rw [hretry]
    · rw [hretry]
      simp only [updateOrderById, horders, List.map_append]
      rw [map_update_skip db.orders newId _ hfresh]
      simp [pendingOrderOf_id]
  · intro t₁ t₂ hne hcontra
    exact hne (congrArg PayRef.ts hcontra)

/-- Witness for C7: a failing gateway call on a fresh database with a
valid request, then a retry at timestamp 5. -/
theorem create_gateway_failure_retryable_witness :
    (createOrder 7 sampleReq 1 0 .failed emptyOrdersDb).res = .paystackFailed 1 ∧
    (createOrder 7 sampleReq 1 0 .failed emptyOrdersDb).db.orders =
      emptyOrdersDb.orders ++
        [{ pendingOrderOf 7 sampleReq 1 emptyOrdersDb with
            order_status := OrdStatus.paymentFailed }] ∧
    ({ pendingOrderOf 7 sampleReq 1 emptyOrdersDb with
        order_status := OrdStatus.paymentFailed }).payment_status = .pending ∧
    (∀ email' t', email' ≠ "" →
      (retryPayment 7 1 email' t' .ok
          (createOrder 7 sampleReq 1 0 .failed emptyOrdersDb).db).res =
        .newRef ⟨1, t'⟩ ∧
      (retryPayment 7 1 email' t' .ok
          (createOrder 7 sampleReq 1 0 .failed emptyOrdersDb).db).db.orders =
        emptyOrdersDb.orders ++
          [{ pendingOrderOf 7 sampleReq 1 emptyOrdersDb with
              order_status := OrdStatus.paymentFailed,
              payment_reference := some ⟨1, t'⟩ }]) ∧
    (∀ t₁ t₂ : ℕ, t₁ ≠ t₂ → (⟨1, t₁⟩ : PayRef) ≠ ⟨1, t₂⟩) :=
  create_gateway_failure_retryable 7 sampleReq 1 0 emptyOrdersDb
    (by decide) (by decide) (by decide) (by decide) (by decide)
    (by decide) (by decide) (by intro o ho; simp [emptyOrdersDb] at ho)

end HealthStore
